import Mathlib

/-!
Verification of the running-session tracking engine of MyNutrify.

This file gives a shallow embedding of the GPS running tracker
(`calculateDistance`, `calculateRunningCalories`, and the `NRCRunningTracker`
class: `start` / `pause` / `resume` / `stop` / `reset`, `addSample` with its
helpers `createSample`, `isValidSample`, `updatePaceWindow`, `checkForSplit`,
`createLap`, `calculateLapStats`, plus `updateTotals`, `getStats` and
`addCoordinate`), and of `ElevationService.calculateElevationStats` from the
elevation service, and proves properties of the embedded code.

Modelling conventions:
* JavaScript numbers are modelled as real numbers (`ℝ`); `Math.floor` is
  `Int.floor` and `Math.round` is `jsRound` below (floor of x + 1/2, which is
  the JS round-half-up rule, including for negative inputs).
* Optional JS fields (`accuracy?`, `altitude?`, `instantPace?`, ...) are
  `Option ℝ`; a JS truthiness test `x && ...` on an optional number is
  "`x` is present and nonzero".
* Mutation is modelled by explicit state passing: each tracker method takes
  and returns a `TrackerState`.  `Date.now()` is an explicit `now` argument.
* `Array.prototype.findIndex` (returning -1 on failure) is `jsFindIndex`;
  one-argument `Array.prototype.slice` (allowing negative start) is
  `jsSliceFrom`.
* The event callback fields (`onSample`, `onSplit`, ...), the session `id`
  string and the GPS-status passthrough (`gpsQuality`) are external
  observation channels that never feed back into the session state; they are
  omitted from the state.
-/

noncomputable section

open Real

open scoped Classical

/-- JS `Math.round`: round half toward positive infinity. -/
def jsRound (x : ℝ) : ℤ := ⌊x + 1 / 2⌋

/-- JS `Array.prototype.findIndex`: index of the first element satisfying
the predicate, `-1` if there is none. -/
def jsFindIndex {α : Type} (p : α → Prop) : List α → ℤ
  | [] => -1
  | a :: rest =>
    if p a then 0
    else
      let r := jsFindIndex p rest
      if r = -1 then -1 else r + 1

/-- JS one-argument `Array.prototype.slice`: from index `k` to the end, a
negative `k` counting from the end and clamping at the ends. -/
def jsSliceFrom {α : Type} (l : List α) (k : ℤ) : List α :=
  if 0 ≤ k then l.drop k.toNat else l.drop ((l.length : ℤ) + k).toNat

/-- JS `Math.atan2 y x`. -/
def atan2 (y x : ℝ) : ℝ :=
  if 0 < x then arctan (y / x)
  else if x < 0 then
    (if 0 ≤ y then arctan (y / x) + π else arctan (y / x) - π)
  else
    (if 0 < y then π / 2 else if y < 0 then -(π / 2) else 0)

/-- Source `degToRad` (gps-utils): degrees to radians. -/
def degToRad (degrees : ℝ) : ℝ := degrees * (π / 180)

/-- Source `calculateDistance` (gps-utils): Haversine great-circle distance in
kilometers on a sphere of radius 6371 km. -/
def calculateDistance (lat1 lon1 lat2 lon2 : ℝ) : ℝ :=
  let R : ℝ := 6371
  let lat1Rad := degToRad lat1
  let lon1Rad := degToRad lon1
  let lat2Rad := degToRad lat2
  let lon2Rad := degToRad lon2
  let dLat := lat2Rad - lat1Rad
  let dLon := lon2Rad - lon1Rad
  let a := sin (dLat / 2) * sin (dLat / 2) +
    cos lat1Rad * cos lat2Rad * sin (dLon / 2) * sin (dLon / 2)
  let c := 2 * atan2 (Real.sqrt a) (Real.sqrt (1 - a))
  R * c

/-- Sex of the user profile (source union type). -/
inductive Gender where
  | male
  | female
deriving DecidableEq

/-- Source `UserRunningProfile`. -/
structure UserRunningProfile where
  weight : ℝ
  age : ℝ
  gender : Gender

/-- Source `getMETFromSpeed`, the helper closure inside
`calculateRunningCalories`: MET value from a speed band. -/
def getMETFromSpeed (speedKmh : ℝ) : ℝ :=
  if speedKmh < 6.4 then 6.0
  else if speedKmh < 8.0 then 8.3
  else if speedKmh < 9.7 then 9.8
  else if speedKmh < 11.3 then 11.0
  else if speedKmh < 12.9 then 12.3
  else if speedKmh < 14.5 then 14.5
  else 16.0

/-- Source `calculateRunningCalories` (gps-utils). -/
def calculateRunningCalories (_distanceKm weightKg avgSpeedKmh
    durationMinutes : ℝ) (profile : UserRunningProfile) : ℝ :=
  let met := getMETFromSpeed avgSpeedKmh
  let timeHours := durationMinutes / 60
  let ageAdjustment : ℝ :=
    if 60 < profile.age then 1.1 else if profile.age < 25 then 0.95 else 1.0
  let genderAdjustment : ℝ := if profile.gender = Gender.female then 0.9 else 1.0
  (jsRound (met * weightKg * timeHours * ageAdjustment * genderAdjustment) : ℝ)

/-- Source `GPSCoordinate` interface. -/
structure GPSCoordinate where
  lat : ℝ
  lon : ℝ
  timestamp : Option ℝ := none
  accuracy : Option ℝ := none
  altitude : Option ℝ := none
  speed : Option ℝ := none

/-- Source `RunSample` interface. -/
structure RunSample where
  lat : ℝ
  lon : ℝ
  timestamp : ℝ
  elevation : Option ℝ := none
  cumulativeDistance : ℝ
  instantPace : Option ℝ := none
  smoothedPace : Option ℝ := none
  accuracy : Option ℝ := none

/-- Source `RunLap` interface. -/
structure RunLap where
  index : ℤ
  startSampleIndex : ℕ
  endSampleIndex : ℕ
  distance : ℝ
  duration : ℝ
  avgPace : ℝ
  splitPace : ℝ
  elevationGain : ℝ
  elevationLoss : ℝ
  timestamp : ℝ

/-- Totals record of `RunSession`. -/
structure RunTotals where
  distance : ℝ
  duration : ℝ
  elevationGain : ℝ
  elevationLoss : ℝ
  avgPace : ℝ
  calories : ℝ

/-- Distance unit of a session (source union type). -/
inductive RunUnit where
  | km
  | mi
deriving DecidableEq

/-- Source `RunSession` interface (the generated `id` string is omitted: it is
random, never read by the engine logic, and no claim concerns it). -/
structure RunSession where
  unit : RunUnit
  splitDistance : ℝ
  startedAt : ℝ
  isPaused : Bool
  totalPausedTime : ℝ
  samples : List RunSample
  laps : List RunLap
  totals : RunTotals

/-- The mutable fields of the `NRCRunningTracker` class that the session logic
reads or writes: the session, the pace-smoothing window and
`lastSampleTime`. -/
structure TrackerState where
  session : RunSession
  paceWindow : List ℝ
  lastSampleTime : ℝ

/-- Constant `MIN_ELEVATION_CHANGE` of the tracker class (meters). -/
def MIN_ELEVATION_CHANGE : ℝ := 3

/-- Constant `PACE_WINDOW_SIZE` of the tracker class (seconds). -/
def PACE_WINDOW_SIZE : ℝ := 15

/-- Split distance assigned by the constructor, `reset` and `setUnit`. -/
def splitDistanceOf (unit : RunUnit) : ℝ :=
  if unit = RunUnit.km then 1 else 0.621371

/-- Session produced by the `NRCRunningTracker` constructor (and `reset`). -/
def initialSession (unit : RunUnit) : RunSession where
  unit := unit
  splitDistance := splitDistanceOf unit
  startedAt := 0
  isPaused := false
  totalPausedTime := 0
  samples := []
  laps := []
  totals := ⟨0, 0, 0, 0, 0, 0⟩

/-- Tracker state produced by the `NRCRunningTracker` constructor. -/
def initialTracker (unit : RunUnit) : TrackerState where
  session := initialSession unit
  paceWindow := []
  lastSampleTime := 0

/-- Source `NRCRunningTracker.start`, with `Date.now()` passed as `now`. -/
def start (st : TrackerState) (now : ℝ) : TrackerState :=
  let st1 :=
    if st.session.startedAt = 0 then
      { st with
        session := { st.session with startedAt := now }
        lastSampleTime := now }
    else if st.session.isPaused then
      let pauseDuration := now - st.lastSampleTime
      { st with
        session := { st.session with
          totalPausedTime := st.session.totalPausedTime + pauseDuration } }
    else st
  { st1 with session := { st1.session with isPaused := false } }

/-- Source `NRCRunningTracker.pause`. -/
def pause (st : TrackerState) (now : ℝ) : TrackerState :=
  if st.session.isPaused then st
  else
    { st with
      session := { st.session with isPaused := true }
      lastSampleTime := now }

/-- Source `NRCRunningTracker.resume`: delegates to `start`. -/
def resume (st : TrackerState) (now : ℝ) : TrackerState := start st now

/-- Per-pair elevation contribution of the gain/loss loops of `updateTotals`
and `calculateLapStats`: a delta of two defined consecutive elevations counts
only when its magnitude reaches `MIN_ELEVATION_CHANGE`. -/
def elevDelta (prev cur : Option ℝ) : ℝ × ℝ :=
  match prev, cur with
  | some pe, some ce =>
    let elevDiff := ce - pe
    if MIN_ELEVATION_CHANGE ≤ |elevDiff| then
      (if 0 < elevDiff then (elevDiff, 0) else (0, |elevDiff|))
    else (0, 0)
  | _, _ => (0, 0)

/-- The elevation gain/loss accumulation loop (`for i = 1; i < length; i++`)
shared verbatim by `updateTotals` and `calculateLapStats`. -/
def elevPairs : List RunSample → ℝ × ℝ
  | a :: b :: rest =>
    let c := elevDelta a.elevation b.elevation
    let t := elevPairs (b :: rest)
    (c.1 + t.1, c.2 + t.2)
  | _ => (0, 0)

/-- Source `NRCRunningTracker.updateTotals`. -/
def updateTotals (s : RunSession) : RunSession :=
  match s.samples.getLast? with
  | none => s
  | some lastSample =>
    let gl := elevPairs s.samples
    { s with totals := { s.totals with
        distance := lastSample.cumulativeDistance
        elevationGain := gl.1
        elevationLoss := gl.2 } }

/-- Source `NRCRunningTracker.stop`: mark paused and finalize totals (the
returned snapshot is the resulting session). -/
def stop (st : TrackerState) : TrackerState :=
  let st1 := { st with session := { st.session with isPaused := true } }
  { st1 with session := updateTotals st1.session }

/-- Source `NRCRunningTracker.reset`. -/
def reset (st : TrackerState) : TrackerState :=
  initialTracker st.session.unit

/-- Source `NRCRunningTracker.createSample`: derive the next `RunSample` from
a coordinate, with cumulative distance and instant pace relative to the last
accepted sample. -/
def createSample (s : RunSession) (coords : GPSCoordinate)
    (timestamp : ℝ) : RunSample :=
  let previousSample := s.samples.getLast?
  let cumulativeDistance :=
    match previousSample with
    | some p =>
      p.cumulativeDistance +
        calculateDistance p.lat p.lon coords.lat coords.lon
    | none => 0
  let base : RunSample :=
    { lat := coords.lat
      lon := coords.lon
      timestamp := timestamp
      elevation := coords.altitude
      cumulativeDistance := cumulativeDistance
      instantPace := none
      smoothedPace := none
      accuracy := coords.accuracy }
  match previousSample with
  | none => base
  | some p =>
    let timeDiff := (timestamp - p.timestamp) / 1000
    let distanceDiff := cumulativeDistance - p.cumulativeDistance
    if 0 < timeDiff ∧ 0 < distanceDiff then
      let speedKmh := distanceDiff / timeDiff * 3600
      { base with
        instantPace := some (if 0 < speedKmh then 60 / speedKmh else 0) }
    else base

/-- Source `NRCRunningTracker.isValidSample`.  The JS truthiness guards
`sample.instantPace && ...` and `sample.accuracy && ...` require the optional
field to be present and nonzero. -/
def isValidSample (s : RunSession) (sample : RunSample) : Bool :=
  match s.samples.getLast? with
  | none => true
  | some _ =>
    if ∃ p, sample.instantPace = some p ∧ p ≠ 0 ∧ 0 < p ∧ p < 1.2 then
      false
    else if ∃ a, sample.accuracy = some a ∧ a ≠ 0 ∧ 30 < a then
      false
    else true

/-- Source `NRCRunningTracker.updatePaceWindow`.  The method mutates both the
tracker's `paceWindow` and the sample object (its `smoothedPace` field); both
results are returned.  Note the source reads `sample.smoothedPace` of the
sample being processed (`sample.smoothedPace || sample.instantPace`), not the
previous sample's smoothed pace. -/
def updatePaceWindow (st : TrackerState) (sample : RunSample) :
    TrackerState × RunSample :=
  match sample.instantPace with
  | none => (st, sample)
  | some ip =>
    if ip = 0 then (st, sample)
    else
      let pw := st.paceWindow ++ [ip]
      let cutoffTime := sample.timestamp - PACE_WINDOW_SIZE * 1000
      let cutoffIndex :=
        jsFindIndex (fun s => cutoffTime ≤ s.timestamp) st.session.samples
      let pw2 :=
        if 0 < cutoffIndex then
          jsSliceFrom pw
            ((pw.length : ℤ) - ((st.session.samples.length : ℤ) - cutoffIndex))
        else pw
      let sample2 :=
        if 0 < pw2.length then
          let alpha : ℝ := 0.3
          let currentSmoothed :=
            match sample.smoothedPace with
            | some v => if v = 0 then ip else v
            | none => ip
          { sample with
            smoothedPace := some (alpha * ip + (1 - alpha) * currentSmoothed) }
        else sample
      ({ st with paceWindow := pw2 }, sample2)

/-- Start index chosen by `NRCRunningTracker.createLap`:
`lapIndex === 1 ? 0 : this.session.laps[lapIndex - 2]?.endSampleIndex + 1 || 0`
(an out-of-range lookup gives `undefined`, `undefined + 1` is `NaN`, and
`NaN || 0` is `0`). -/
def createLapStartIdx (laps : List RunLap) (lapIndex : ℤ) : ℕ :=
  if lapIndex = 1 then 0
  else
    match (if 0 ≤ lapIndex - 2 then laps.get? (lapIndex - 2).toNat else none) with
    | some prevLap => prevLap.endSampleIndex + 1
    | none => 0

/-- Source `NRCRunningTracker.calculateLapStats`: fill the pace and elevation
fields of a freshly built lap from the samples in
`slice(startSampleIndex, endSampleIndex + 1)`. -/
def calculateLapStats (st : TrackerState) (lap : RunLap) : RunLap :=
  let samples :=
    (st.session.samples.drop lap.startSampleIndex).take
      (lap.endSampleIndex + 1 - lap.startSampleIndex)
  if samples.length < 2 then lap
  else
    let speedKmh := lap.distance / lap.duration * 3600
    let splitPace := if 0 < speedKmh then 60 / speedKmh else 0
    let gl := elevPairs samples
    { lap with
      splitPace := splitPace
      avgPace := splitPace
      elevationGain := gl.1
      elevationLoss := gl.2 }

/-- Source `NRCRunningTracker.createLap`.  When `startIdx` is out of range the
source JS dereferences `undefined` and throws; that branch is unreachable from
the tracker's own call site (`checkForSplit` inside `addSample`, which always
runs just after a sample was pushed), and is modelled as leaving the state
unchanged. -/
def createLap (st : TrackerState) (lapIndex : ℤ) : TrackerState :=
  let samples := st.session.samples
  let splitDistance := st.session.splitDistance
  let targetDistance := lapIndex * splitDistance
  let startIdx := createLapStartIdx st.session.laps lapIndex
  let endIdx :=
    jsFindIndex (fun s => targetDistance ≤ s.cumulativeDistance) samples
  if endIdx = -1 then st
  else
    match samples.get? startIdx, samples.get? endIdx.toNat with
    | some startSample, some endSample =>
      let lap : RunLap :=
        { index := lapIndex
          startSampleIndex := startIdx
          endSampleIndex := endIdx.toNat
          distance := endSample.cumulativeDistance - startSample.cumulativeDistance
          duration := (endSample.timestamp - startSample.timestamp) / 1000
          avgPace := 0
          splitPace := 0
          elevationGain := 0
          elevationLoss := 0
          timestamp := endSample.timestamp }
      let lap2 := calculateLapStats st lap
      { st with session := { st.session with laps := st.session.laps ++ [lap2] } }
    | _, _ => st

/-- Source `NRCRunningTracker.checkForSplit`. -/
def checkForSplit (st : TrackerState) (sample : RunSample) : TrackerState :=
  let expectedLapCount := ⌊sample.cumulativeDistance / st.session.splitDistance⌋
  if (st.session.laps.length : ℤ) < expectedLapCount then
    createLap st expectedLapCount
  else st

/-- Source `NRCRunningTracker.addSample`.  The sample object pushed into
`session.samples` is the same object later mutated by `updatePaceWindow`, so
the stored last element is replaced by the mutated sample. -/
def addSample (st : TrackerState) (coords : GPSCoordinate)
    (now : ℝ) : TrackerState :=
  if st.session.isPaused ∨ st.session.startedAt = 0 then st
  else
    let sample := createSample st.session coords now
    if isValidSample st.session sample then
      let st1 := { st with
        session := { st.session with samples := st.session.samples ++ [sample] } }
      let r := updatePaceWindow st1 sample
      let st3 := { r.1 with
        session := { r.1.session with
          samples := r.1.session.samples.dropLast ++ [r.2] } }
      let st4 := checkForSplit st3 r.2
      { st4 with lastSampleTime := now }
    else st

/-- Fold a list of (coordinate, arrival-time) fixes through `addSample`. -/
def processFixes (st : TrackerState) (fixes : List (GPSCoordinate × ℝ)) :
    TrackerState :=
  fixes.foldl (fun s fc => addSample s fc.1 fc.2) st

/-- Stats record returned by `getStats` (the `gpsQuality` passthrough of the
sensor adapter's status is omitted: it is not part of the session state). -/
structure RunningStats where
  distance : ℝ
  duration : ℝ
  avgSpeed : ℝ
  avgPace : ℝ
  currentPace : ℝ
  calories : ℝ
  coordinatesCount : ℕ
  elevationGain : ℝ
  elevationLoss : ℝ
  totalLaps : ℕ
  currentLap : ℕ

/-- Source `NRCRunningTracker.getStats`: first runs `updateTotals` (mutating
the session), then builds the snapshot; both results are returned. -/
def getStats (st : TrackerState) (userProfile : UserRunningProfile)
    (now : ℝ) : TrackerState × RunningStats :=
  let session := updateTotals st.session
  let currentSample := session.samples.getLast?
  let duration :=
    if 0 < session.startedAt then
      (now - session.startedAt - session.totalPausedTime) / 1000 / 60
    else 0
  let currentPace :=
    match currentSample with
    | some s => (s.smoothedPace).getD 0
    | none => 0
  let avgSpeed := if 0 < duration then session.totals.distance / duration * 60 else 0
  let avgPace := if 0 < avgSpeed then 60 / avgSpeed else 0
  let calories :=
    if 0 < duration then
      calculateRunningCalories session.totals.distance userProfile.weight
        avgSpeed duration userProfile
    else 0
  ({ st with session := session },
   { distance := (jsRound (session.totals.distance * 1000) : ℝ) / 1000
     duration := (jsRound (duration * 10) : ℝ) / 10
     avgSpeed := (jsRound (avgSpeed * 10) : ℝ) / 10
     avgPace := (jsRound (avgPace * 10) : ℝ) / 10
     currentPace := (jsRound (currentPace * 10) : ℝ) / 10
     calories := (jsRound calories : ℝ)
     coordinatesCount := session.samples.length
     elevationGain := (jsRound session.totals.elevationGain : ℝ)
     elevationLoss := (jsRound session.totals.elevationLoss : ℝ)
     totalLaps := session.laps.length
     currentLap := session.laps.length + 1 })

/-- Source `NRCRunningTracker.addCoordinate`.  The method reads
`this.isRunning` (a method reference, hence always truthy, so the
`!this.isRunning` early return never fires), `this.totalDistance` and
`this.coordinates` — the latter two are never declared or initialized on the
class, so they are `undefined` at run time.  Returning `this.totalDistance`
yields `undefined` (modelled `Except.ok none`); reaching
`this.coordinates.length` dereferences `undefined` and throws a `TypeError`
(modelled `Except.error`). -/
def addCoordinate (_st : TrackerState) (lat lon : ℝ) (accuracy : Option ℝ)
    (_now : ℝ) : Except String (Option ℝ) :=
  if ∃ a, accuracy = some a ∧ a ≠ 0 ∧ 30 < a then
    Except.ok none
  else if 90 < |lat| ∨ 180 < |lon| then
    Except.ok none
  else
    Except.error "TypeError: cannot read length of undefined coordinates"

/-- Source `ElevationService.calculateElevationStats` (elevation service):
gain/loss totals over consecutive elevation deltas, rounded; no minimum-change
threshold is applied. -/
def elevationServicePairs : List ℝ → ℝ × ℝ
  | a :: b :: rest =>
    let diff := b - a
    let t := elevationServicePairs (b :: rest)
    if 0 < diff then (diff + t.1, t.2) else (t.1, |diff| + t.2)

  | _ => (0, 0)

/-- Source `ElevationService.calculateElevationStats`: the public entry, with
the short-list guard and final rounding. -/
def calculateElevationStats (elevations : List ℝ) : ℝ × ℝ :=
  if elevations.length < 2 then (0, 0)
  else
    let t := elevationServicePairs elevations
    ((jsRound t.1 : ℝ), (jsRound t.2 : ℝ))

/-! Concrete fixtures used to instantiate the theorems below. -/

/-- A first accepted sample at the origin. -/
def sampleO : RunSample :=
  { lat := 0, lon := 0, timestamp := 0, cumulativeDistance := 0 }

/-- A later sample without accuracy and without instant pace. -/
def sampleB : RunSample :=
  { lat := 0, lon := 3, timestamp := 2000, cumulativeDistance := 1 }

/-- A started, unpaused km session holding one accepted sample. -/
def sessionOne : RunSession :=
  { initialSession RunUnit.km with startedAt := 1, samples := [sampleO] }

/-- Tracker state around `sessionOne`. -/
def trackerOne : TrackerState :=
  { session := sessionOne, paceWindow := [], lastSampleTime := 0 }

/-- The same session frozen in the paused state. -/
def pausedTracker : TrackerState :=
  { session := { sessionOne with isPaused := true }
    paceWindow := []
    lastSampleTime := 0 }

/-- A fresh km tracker started at t = 1 ms. -/
def trackerStarted : TrackerState :=
  { session := { initialSession RunUnit.km with startedAt := 1 }
    paceWindow := []
    lastSampleTime := 1 }

/-- The same tracker after `stop`. -/
def trackerStopped : TrackerState :=
  { session := { initialSession RunUnit.km with startedAt := 1, isPaused := true }
    paceWindow := []
    lastSampleTime := 1 }

/-- The same tracker after `stop` and a further `start` at t = 2000 ms. -/
def trackerRestarted : TrackerState :=
  { session := { initialSession RunUnit.km with
      startedAt := 1, isPaused := false, totalPausedTime := 0 + (2000 - 1) }
    paceWindow := []
    lastSampleTime := 1 }

/-- A fresh km tracker started at t = 1000 ms. -/
def trackerStarted1000 : TrackerState :=
  { session := { initialSession RunUnit.km with startedAt := 1000 }
    paceWindow := []
    lastSampleTime := 1000 }

/-- The same tracker paused at t = 61000 ms (the pause still ongoing). -/
def trackerPausedAt61 : TrackerState :=
  { session := { initialSession RunUnit.km with startedAt := 1000, isPaused := true }
    paceWindow := []
    lastSampleTime := 61000 }

/-- A started km session holding two accepted samples. -/
def trackerTwo : TrackerState :=
  { session := { initialSession RunUnit.km with
      startedAt := 1, samples := [sampleO, sampleB] }
    paceWindow := []
    lastSampleTime := 0 }

/-- A lap spanning the two samples of `trackerTwo`. -/
def lapFix : RunLap :=
  { index := 1, startSampleIndex := 0, endSampleIndex := 1, distance := 1,
    duration := 2, avgPace := 0, splitPace := 0, elevationGain := 0,
    elevationLoss := 0, timestamp := 2000 }

/-- The first sample of the quarter-equator run (accepted at t = 1000 ms). -/
def s1run : RunSample :=
  { lat := 0, lon := 0, timestamp := 1000, cumulativeDistance := 0 }

/-- Tracker of the quarter-equator run after its first accepted sample. -/
def trackerRun1 : TrackerState :=
  { session := { initialSession RunUnit.km with startedAt := 1, samples := [s1run] }
    paceWindow := []
    lastSampleTime := 1000 }

/-- The instant pace of the quarter-equator run's second sample. -/
def paceRun : ℝ := 60 / (6371 * (π / 2) / 1000000 * 3600)

/-- The second sample of the quarter-equator run: a quarter of the equator
east, 10^6 seconds later. -/
def s2run : RunSample :=
  { lat := 0, lon := 90, timestamp := 1000001000,
    cumulativeDistance := 6371 * (π / 2),
    instantPace := some paceRun }

/-- The second sample after `updatePaceWindow` stamped its smoothed pace. -/
def s2runS : RunSample :=
  { s2run with smoothedPace := some (0.3 * paceRun + (1 - 0.3) * paceRun) }

/-- The quarter-equator run just before split detection: both samples stored,
the pace window updated. -/
def trackerRun3 : TrackerState :=
  { session := { initialSession RunUnit.km with
      startedAt := 1, samples := [s1run, s2runS] }
    paceWindow := [paceRun]
    lastSampleTime := 1000 }

/-- A sample sitting at cumulative distance 2.5 km. -/
def sCum25 : RunSample :=
  { lat := 0, lon := 0, timestamp := 5000, cumulativeDistance := 2.5 }

/-- A started km session holding only `sCum25`, with no laps yet. -/
def trackerCum25 : TrackerState :=
  { session := { initialSession RunUnit.km with startedAt := 1, samples := [sCum25] }
    paceWindow := []
    lastSampleTime := 0 }

/-- A fix at the origin. -/
def coordO : GPSCoordinate := { lat := 0, lon := 0 }

/-- A fix a quarter of the equator east of the origin. -/
def coordE : GPSCoordinate := { lat := 0, lon := 90 }

/-- A user profile with no age or sex adjustment. -/
def profile0 : UserRunningProfile := { weight := 70, age := 30, gender := Gender.male }

/-- Sum of the pairwise Haversine increments along a sample sequence. -/
def pairwiseSum : List RunSample → ℝ
  | a :: b :: rest =>
    calculateDistance a.lat a.lon b.lat b.lon + pairwiseSum (b :: rest)
  | _ => 0

/-- Consistency of cumulative distances: each sample's cumulative distance is
the previous one's plus the Haversine increment between them. -/
def cumConsistent (l : List RunSample) : Prop :=
  List.Chain' (fun p c => c.cumulativeDistance =
    p.cumulativeDistance + calculateDistance p.lat p.lon c.lat c.lon) l

/-- The first sample of a sequence starts at cumulative distance zero. -/
def headZero (l : List RunSample) : Prop :=
  ∀ s ∈ l.head?, s.cumulativeDistance = 0

/-! ### Basic facts about the embedded Haversine distance -/

lemma atan2_nonneg {y x : ℝ} (hy : 0 ≤ y) (hx : 0 ≤ x) : 0 ≤ atan2 y x := by
  unfold atan2
  rcases lt_or_eq_of_le hx with h | h
  · rw [if_pos h]
    have hq : 0 ≤ y / x := div_nonneg hy (le_of_lt h)
    calc (0:ℝ) = arctan 0 := Real.arctan_zero.symm
      _ ≤ arctan (y / x) := Real.arctan_strictMono.monotone hq
  · rw [if_neg (by rw [← h]; exact lt_irrefl 0),
      if_neg (by rw [← h]; exact lt_irrefl 0)]
    rcases lt_or_eq_of_le hy with hy' | hy'
    · rw [if_pos hy']
      positivity
    · rw [if_neg (by rw [← hy']; exact lt_irrefl 0),
        if_neg (by rw [← hy']; exact lt_irrefl 0)]

lemma calculateDistance_nonneg (lat1 lon1 lat2 lon2 : ℝ) :
    0 ≤ calculateDistance lat1 lon1 lat2 lon2 := by
  simp only [calculateDistance]
  apply mul_nonneg (by norm_num)
  apply mul_nonneg (by norm_num)
  exact atan2_nonneg (Real.sqrt_nonneg _) (Real.sqrt_nonneg _)

lemma atan2_pos_pos {y x : ℝ} (hy : 0 < y) (hx : 0 < x) :
    atan2 y x = arctan (y / x) := by
  unfold atan2
  rw [if_pos hx]

/-- The Haversine distance from (0°, 0°) to (0°, 90°): a quarter of the
equator, 6371·π/2 km. -/
lemma calculateDistance_zero_ninety :
    calculateDistance 0 0 0 90 = 6371 * (π / 2) := by
  have e1 : degToRad 0 = 0 := by simp [degToRad]
  have e2 : degToRad 90 = π / 2 := by rw [degToRad]; ring
  simp only [calculateDistance, e1, e2]
  have edLat : ((0:ℝ) - 0) / 2 = 0 := by norm_num
  have edLon : (π / 2 - 0) / 2 = π / 4 := by ring
  rw [edLat, edLon, Real.sin_zero, Real.cos_zero, Real.sin_pi_div_four]
  have ehalf : (0:ℝ) * 0 + 1 * 1 * (Real.sqrt 2 / 2) * (Real.sqrt 2 / 2) = 1 / 2 := by
    have h2 : Real.sqrt 2 * Real.sqrt 2 = 2 := Real.mul_self_sqrt (by norm_num)
    linear_combination h2 / 4
  rw [ehalf]
  have hpos : 0 < Real.sqrt (1 / 2) := Real.sqrt_pos.mpr (by norm_num)
  have h12 : (1:ℝ) - 1 / 2 = 1 / 2 := by norm_num
  rw [h12, atan2_pos_pos hpos hpos, div_self (ne_of_gt hpos), Real.arctan_one]
  ring

/-! ### Claim theorems: the pace-smoothing slip (C5) and the
undeclared-field crash in addCoordinate (C8) -/

/-- C5: the spec says the stored smoothed pace is the exponential moving
average 0.3·instant + 0.7·(previous sample's smoothed pace).  The source
instead reads the *current* sample's own `smoothedPace` (still undefined at
that point), so the EMA degenerates to the instant pace: with a previous
smoothed pace of 10 and an instant pace of 20, the code stores 20, not
0.3·20 + 0.7·10 = 13.  This contradicts the code's own comment ("Calculate
smoothed pace using exponential moving average"): a code bug. -/
theorem updatePaceWindow_ema_degenerates :
    (updatePaceWindow
      { session :=
          { initialSession RunUnit.km with
            startedAt := 1
            samples :=
              [{ lat := 0, lon := 0, timestamp := 0, cumulativeDistance := 0,
                 instantPace := some 10, smoothedPace := some 10 },
               { lat := 0, lon := 0.01, timestamp := 1000,
                 cumulativeDistance := 1, instantPace := some 20 }] }
        paceWindow := [10]
        lastSampleTime := 0 }
      { lat := 0, lon := 0.01, timestamp := 1000, cumulativeDistance := 1,
        instantPace := some 20 }).2.smoothedPace = some 20 ∧
    (20 : ℝ) ≠ 0.3 * 20 + (1 - 0.3) * 10 := by
  constructor
  · simp only [updatePaceWindow, jsFindIndex, jsSliceFrom, PACE_WINDOW_SIZE]
    norm_num
  · norm_num

/-- C8: the spec says the engine's public operations never throw for
malformed or noisy input.  But `addCoordinate` dereferences
`this.coordinates`, a field never declared or initialized on
`NRCRunningTracker`, so every coordinate that passes the accuracy and range
checks makes it throw a `TypeError` — here a perfectly clean fix
(0°, 0.001°) with 5 m accuracy on a fresh tracker. -/
theorem addCoordinate_throws :
    addCoordinate (initialTracker RunUnit.km) 0 0.001 (some 5) 0 =
      Except.error "TypeError: cannot read length of undefined coordinates" := by
  unfold addCoordinate
  have h1 : ¬ ∃ a : ℝ, (some (5:ℝ)) = some a ∧ a ≠ 0 ∧ 30 < a := by
    rintro ⟨a, ha, -, hgt⟩
    rw [Option.some.injEq] at ha
    rw [← ha] at hgt
    norm_num at hgt
  have h2 : ¬ ((90:ℝ) < |(0:ℝ)| ∨ (180:ℝ) < |(0.001:ℝ)|) := by
    push_neg
    constructor <;> rw [abs_of_nonneg (by norm_num)] <;> norm_num
  rw [if_neg h1, if_neg h2]

/-! ### Field-preservation facts for updateTotals -/

@[simp] lemma updateTotals_startedAt (s : RunSession) :
    (updateTotals s).startedAt = s.startedAt := by
  unfold updateTotals
  cases s.samples.getLast? <;> rfl

@[simp] lemma updateTotals_totalPausedTime (s : RunSession) :
    (updateTotals s).totalPausedTime = s.totalPausedTime := by
  unfold updateTotals
  cases s.samples.getLast? <;> rfl

@[simp] lemma updateTotals_isPaused (s : RunSession) :
    (updateTotals s).isPaused = s.isPaused := by
  unfold updateTotals
  cases s.samples.getLast? <;> rfl

@[simp] lemma updateTotals_samples (s : RunSession) :
    (updateTotals s).samples = s.samples := by
  unfold updateTotals
  cases s.samples.getLast? <;> rfl

@[simp] lemma updateTotals_laps (s : RunSession) :
    (updateTotals s).laps = s.laps := by
  unfold updateTotals
  cases s.samples.getLast? <;> rfl

@[simp] lemma updateTotals_splitDistance (s : RunSession) :
    (updateTotals s).splitDistance = s.splitDistance := by
  unfold updateTotals
  cases s.samples.getLast? <;> rfl

/-! ### The validity gate -/

lemma isValidSample_false_of_pace (s : RunSession) (sample : RunSample)
    (prev : RunSample) (hprev : s.samples.getLast? = some prev)
    (p : ℝ) (hp : sample.instantPace = some p)
    (hne : p ≠ 0) (hpos : 0 < p) (hlt : p < 1.2) :
    isValidSample s sample = false := by
  unfold isValidSample
  rw [hprev]
  rw [if_pos ⟨p, hp, hne, hpos, hlt⟩]

lemma createSample_instantPace (s : RunSession) (coords : GPSCoordinate)
    (now : ℝ) (prev : RunSample) (hprev : s.samples.getLast? = some prev)
    (ht : 0 < (now - prev.timestamp) / 1000)
    (hd : 0 < calculateDistance prev.lat prev.lon coords.lat coords.lon) :
    (createSample s coords now).instantPace =
      some (60 / (calculateDistance prev.lat prev.lon coords.lat coords.lon /
        ((now - prev.timestamp) / 1000) * 3600)) := by
  simp only [createSample, hprev]
  have hdd : prev.cumulativeDistance +
      calculateDistance prev.lat prev.lon coords.lat coords.lon -
      prev.cumulativeDistance =
      calculateDistance prev.lat prev.lon coords.lat coords.lon := by ring
  rw [if_pos ⟨ht, by rw [hdd]; exact hd⟩]
  have hsp : 0 < (prev.cumulativeDistance +
      calculateDistance prev.lat prev.lon coords.lat coords.lon -
      prev.cumulativeDistance) / ((now - prev.timestamp) / 1000) * 3600 := by
    rw [hdd]
    exact mul_pos (div_pos hd ht) (by norm_num)
  rw [if_pos hsp, hdd]

/-- C10: a fix whose accuracy field is absent or zero always passes the
accuracy gate of `isValidSample` — the sample can be rejected only by the
pace check (and only when a previous accepted sample exists). -/
theorem isValidSample_no_accuracy_gate (s : RunSession) (sample : RunSample)
    (hacc : sample.accuracy = none ∨ sample.accuracy = some 0) :
    isValidSample s sample = false ↔
      ((s.samples.getLast?).isSome = true ∧
        ∃ p, sample.instantPace = some p ∧ p ≠ 0 ∧ 0 < p ∧ p < 1.2) := by
  unfold isValidSample
  cases hlast : s.samples.getLast? with
  | none =>
    simp
  | some prev =>
    simp only [Option.isSome_some, true_and]
    have haccf : ¬ ∃ a, sample.accuracy = some a ∧ a ≠ 0 ∧ 30 < a := by
      rintro ⟨a, ha, hne, -⟩
      rcases hacc with h | h
      · rw [h] at ha
        exact Option.noConfusion ha
      · rw [h] at ha
        rw [Option.some.injEq] at ha
        exact hne ha.symm
    by_cases hpace : ∃ p, sample.instantPace = some p ∧ p ≠ 0 ∧ 0 < p ∧ p < 1.2
    · rw [if_pos hpace]
      simp [hpace]
    · rw [if_neg hpace, if_neg haccf]
      simp [hpace]

/-- Witness for the C10 theorem at a concrete sample: accuracy absent,
instant pace absent, one previously accepted sample — the sample is
accepted. -/
theorem isValidSample_no_accuracy_gate_witness :
    (sampleB.accuracy = none ∨ sampleB.accuracy = some 0) ∧
    (isValidSample sessionOne sampleB = false ↔
      (sessionOne.samples.getLast?.isSome = true ∧
        ∃ p, sampleB.instantPace = some p ∧ p ≠ 0 ∧ 0 < p ∧ p < 1.2)) := by
  refine ⟨Or.inl rfl, isValidSample_no_accuracy_gate _ _ (Or.inl rfl)⟩

/-- C3: a fix whose implied speed relative to the previous accepted sample
exceeds the code's realistic ceiling of 50 km/h (in particular one implying
200 km/h) is rejected by a running session: `addSample` leaves the whole
state unchanged, so totals distance and sample count are unchanged. -/
theorem addSample_rejects_unrealistic_speed
    (st : TrackerState) (coords : GPSCoordinate) (now : ℝ) (prev : RunSample)
    (hp : st.session.isPaused = false) (hs : st.session.startedAt ≠ 0)
    (hprev : st.session.samples.getLast? = some prev)
    (ht : 0 < (now - prev.timestamp) / 1000)
    (hd : 0 < calculateDistance prev.lat prev.lon coords.lat coords.lon)
    (hspeed : 50 < calculateDistance prev.lat prev.lon coords.lat coords.lon /
      ((now - prev.timestamp) / 1000) * 3600) :
    addSample st coords now = st ∧
    (addSample st coords now).session.totals.distance =
      st.session.totals.distance ∧
    (addSample st coords now).session.samples.length =
      st.session.samples.length := by
  have hip := createSample_instantPace st.session coords now prev hprev ht hd
  have hsp : 0 < calculateDistance prev.lat prev.lon coords.lat coords.lon /
      ((now - prev.timestamp) / 1000) * 3600 := lt_trans (by norm_num) hspeed
  have hpace_pos : 0 < 60 / (calculateDistance prev.lat prev.lon coords.lat
      coords.lon / ((now - prev.timestamp) / 1000) * 3600) :=
    div_pos (by norm_num) hsp
  have hpace_lt : 60 / (calculateDistance prev.lat prev.lon coords.lat
      coords.lon / ((now - prev.timestamp) / 1000) * 3600) < 1.2 := by
    rw [div_lt_iff₀ hsp]
    nlinarith [hspeed]
  have hval : isValidSample st.session (createSample st.session coords now) =
      false :=
    isValidSample_false_of_pace _ _ prev hprev _ hip
      (ne_of_gt hpace_pos) hpace_pos hpace_lt
  have hmain : addSample st coords now = st := by
    unfold addSample
    rw [if_neg (by simp [hp, hs])]
    simp only [hval]
    simp
  exact ⟨hmain, by rw [hmain], by rw [hmain]⟩

/-- Witness for the C3 theorem: on a running session whose last accepted
sample sits at the origin, a fix a quarter of the equator away one second
later (an astronomically unrealistic speed) is rejected unchanged. -/
theorem addSample_rejects_unrealistic_speed_witness :
    trackerOne.session.isPaused = false ∧
    trackerOne.session.samples.getLast? = some sampleO ∧
    50 < calculateDistance sampleO.lat sampleO.lon coordE.lat coordE.lon /
      ((1000 - sampleO.timestamp) / 1000) * 3600 ∧
    addSample trackerOne coordE 1000 = trackerOne := by
  have hdist : calculateDistance sampleO.lat sampleO.lon coordE.lat coordE.lon =
      6371 * (π / 2) := by
    show calculateDistance 0 0 0 90 = 6371 * (π / 2)
    exact calculateDistance_zero_ninety
  have ht : 0 < ((1000 : ℝ) - sampleO.timestamp) / 1000 := by
    show 0 < ((1000 : ℝ) - 0) / 1000
    norm_num
  have hd : 0 < calculateDistance sampleO.lat sampleO.lon coordE.lat coordE.lon := by
    rw [hdist]
    positivity
  have hspeed : 50 < calculateDistance sampleO.lat sampleO.lon coordE.lat
      coordE.lon / ((1000 - sampleO.timestamp) / 1000) * 3600 := by
    rw [hdist]
    show (50:ℝ) < 6371 * (π / 2) / (((1000:ℝ) - 0) / 1000) * 3600
    have hπ : (3:ℝ) < π := Real.pi_gt_three
    nlinarith [hπ]
  refine ⟨rfl, rfl, hspeed, ?_⟩
  exact (addSample_rejects_unrealistic_speed trackerOne coordE 1000 sampleO
    rfl (by norm_num [trackerOne, sessionOne, initialSession]) rfl ht hd hspeed).1


/-! ### Step lemmas for the lifecycle operations -/

lemma start_fresh (st : TrackerState) (now : ℝ)
    (h : st.session.startedAt = 0) :
    start st now =
      { st with
        session := { st.session with startedAt := now, isPaused := false }
        lastSampleTime := now } := by
  unfold start
  rw [if_pos h]

lemma start_resume (st : TrackerState) (now : ℝ)
    (h : ¬ st.session.startedAt = 0) (h2 : st.session.isPaused = true) :
    start st now =
      { st with
        session := { st.session with
          isPaused := false
          totalPausedTime :=
            st.session.totalPausedTime + (now - st.lastSampleTime) } } := by
  unfold start
  rw [if_neg h, if_pos h2]

lemma pause_unpaused (st : TrackerState) (now : ℝ)
    (h : st.session.isPaused = false) :
    pause st now =
      { st with
        session := { st.session with isPaused := true }
        lastSampleTime := now } := by
  unfold pause
  rw [if_neg (by rw [h]; simp)]

lemma stop_eq (st : TrackerState) :
    stop st =
      { st with
        session := updateTotals { st.session with isPaused := true } } := rfl

lemma updateTotals_empty (s : RunSession) (h : s.samples = []) :
    updateTotals s = s := by
  unfold updateTotals
  rw [h]
  rfl

/-- Accepting the very first sample of a session: no previous sample exists,
so the fix is accepted with cumulative distance 0 and no instant pace, and no
lap can be created. -/
lemma addSample_first (st : TrackerState) (c : GPSCoordinate) (now : ℝ)
    (hp : st.session.isPaused = false) (hs : st.session.startedAt ≠ 0)
    (hempty : st.session.samples = []) :
    addSample st c now =
      { st with
        session := { st.session with
          samples := [{ lat := c.lat, lon := c.lon, timestamp := now,
                        elevation := c.altitude, cumulativeDistance := 0,
                        instantPace := none, smoothedPace := none,
                        accuracy := c.accuracy }] }
        lastSampleTime := now } := by
  have hlast : st.session.samples.getLast? = none := by rw [hempty]; rfl
  have hcs : createSample st.session c now =
      { lat := c.lat, lon := c.lon, timestamp := now, elevation := c.altitude,
        cumulativeDistance := 0, instantPace := none, smoothedPace := none,
        accuracy := c.accuracy } := by
    unfold createSample
    rw [hlast]
  have hvalid : isValidSample st.session (createSample st.session c now) =
      true := by
    unfold isValidSample
    rw [hlast]
  rw [hcs] at hvalid
  unfold addSample
  rw [if_neg (by simp [hp, hs])]
  simp only [hcs, hvalid, eq_self_iff_true, if_true]
  simp only [updatePaceWindow, checkForSplit, hempty]
  norm_num
  rw [if_neg (not_lt.mpr (Nat.cast_nonneg _))]
  exact ⟨rfl, rfl⟩

/-- C9 counterexample: the claim says a stopped session never accepts another
sample and that no later `start`/`resume` calls without `reset` can re-enable
it.  In the source, `stop` merely sets `isPaused`; a subsequent `start`
resumes, and a fresh fix IS then accepted: the sample count of the
start–stop–start–addSample run goes from 0 to 1 although `reset` was never
called. -/
theorem stop_then_start_accepts_samples :
    (stop (start (initialTracker RunUnit.km) 1)).session.samples.length = 0 ∧
    (addSample (start (stop (start (initialTracker RunUnit.km) 1)) 2000)
        coordO 3000).session.samples.length = 1 := by
  have e1 : start (initialTracker RunUnit.km) 1 = trackerStarted := by
    rw [start_fresh _ _ rfl]
    rfl
  have hupdt : updateTotals { trackerStarted.session with isPaused := true } =
      { trackerStarted.session with isPaused := true } := updateTotals_empty _ rfl
  have e2 : stop (start (initialTracker RunUnit.km) 1) = trackerStopped := by
    rw [e1, stop_eq, hupdt]
    rfl
  have e3 : start (stop (start (initialTracker RunUnit.km) 1)) 2000 =
      trackerRestarted := by
    rw [e2, start_resume _ _ (by norm_num [trackerStopped, initialSession]) rfl]
    rfl
  constructor
  · rw [e2]
    rfl
  · rw [e3, addSample_first _ _ _ rfl
      (by norm_num [trackerRestarted, initialSession]) rfl]
    rfl

/-- C9 amended: `stop` only sets the pause flag and finalizes totals — there
is no distinct terminal state.  While the session stays paused, `addSample`
is a strict no-op; but any later `start` (or `resume`, which delegates to
`start`) clears the pause flag again, after which samples are accepted
again even though `reset` was never called. -/
theorem stop_pauses_only (st st2 : TrackerState) (c : GPSCoordinate)
    (now now2 : ℝ) (hpaused : st2.session.isPaused = true) :
    (stop st).session.isPaused = true ∧
    addSample st2 c now = st2 ∧
    (start (stop st) now2).session.isPaused = false := by
  refine ⟨?_, ?_, ?_⟩
  · rw [stop_eq]
    simp
  · unfold addSample
    rw [if_pos (Or.inl hpaused)]
  · unfold start
    rfl

/-- Witness for the C9 amended theorem on concrete states. -/
theorem stop_pauses_only_witness :
    pausedTracker.session.isPaused = true ∧
    ((stop trackerOne).session.isPaused = true ∧
      addSample pausedTracker coordO 5 = pausedTracker ∧
      (start (stop trackerOne) 99).session.isPaused = false) :=
  ⟨rfl, stop_pauses_only trackerOne pausedTracker coordO 5 99 rfl⟩

lemma start_after_pause (st : TrackerState) (tPause tResume : ℝ)
    (hp : st.session.isPaused = false) (hs0 : ¬ st.session.startedAt = 0) :
    start (pause st tPause) tResume =
      { st with
        session := { st.session with
          isPaused := false
          totalPausedTime :=
            st.session.totalPausedTime + (tResume - tPause) }
        lastSampleTime := tPause } := by
  rw [pause_unpaused st tPause hp]
  unfold start
  rw [if_neg hs0, if_pos rfl]

/-- C2 counterexample: the claim says the reported duration excludes the time
the session has currently been sitting paused.  Start at t = 1000 ms, pause
at t = 61000 ms, ask for stats at t = 91000 ms while still paused: the code
reports 1.5 minutes, but the wall-clock elapsed minus the cumulative paused
time including the ongoing 30 s pause is 1.0 minute. -/
theorem getStats_duration_includes_current_pause :
    (getStats (pause (start (initialTracker RunUnit.km) 1000) 61000) profile0
        91000).2.duration = 1.5 ∧
    ((91000 - 1000 - (0 + (91000 - 61000)) : ℝ) / 1000 / 60 = 1) ∧
    ((1.5 : ℝ) ≠ 1) := by
  have e1 : start (initialTracker RunUnit.km) 1000 = trackerStarted1000 := by
    rw [start_fresh _ _ rfl]
    rfl
  have e2 : pause (start (initialTracker RunUnit.km) 1000) 61000 =
      trackerPausedAt61 := by
    rw [e1, pause_unpaused _ _ rfl]
    rfl
  refine ⟨?_, by norm_num, by norm_num⟩
  rw [e2]
  simp only [getStats, updateTotals_startedAt, updateTotals_totalPausedTime]
  rw [if_pos (by norm_num [trackerPausedAt61, initialSession] :
    (0:ℝ) < trackerPausedAt61.session.startedAt)]
  norm_num [trackerPausedAt61, initialSession, jsRound]

/-- C2 amended: the reported duration is
(now − startedAt − totalPausedTime) where `totalPausedTime` accumulates only
completed pauses.  A pause immediately followed by a resume does not advance
the reported duration — the value at the resume instant equals the value at
the pause instant — but while the session is still sitting paused the
reported duration keeps growing, because the ongoing pause has not yet been
added to `totalPausedTime`. -/
theorem getStats_duration_formula_and_pause_resume
    (st : TrackerState) (profile : UserRunningProfile)
    (now tPause tResume : ℝ)
    (hp : st.session.isPaused = false) (hs : 0 < st.session.startedAt) :
    (getStats st profile now).2.duration =
      (jsRound ((now - st.session.startedAt - st.session.totalPausedTime)
        / 1000 / 60 * 10) : ℝ) / 10 ∧
    (getStats (start (pause st tPause) tResume) profile tResume).2.duration =
      (getStats st profile tPause).2.duration := by
  have hs0 : ¬ st.session.startedAt = 0 := by
    intro h
    rw [h] at hs
    exact lt_irrefl 0 hs
  constructor
  · simp only [getStats, updateTotals_startedAt, updateTotals_totalPausedTime]
    rw [if_pos hs]
  · rw [start_after_pause st tPause tResume hp hs0]
    simp only [getStats, updateTotals_startedAt, updateTotals_totalPausedTime]
    rw [if_pos hs, if_pos hs]
    have harg : (tResume - st.session.startedAt -
        (st.session.totalPausedTime + (tResume - tPause))) / 1000 / 60 * 10 =
        (tPause - st.session.startedAt - st.session.totalPausedTime) /
          1000 / 60 * 10 := by
      ring
    rw [harg]

/-- Witness for the C2 amended theorem: a started, unpaused session polled at
t = 5000 ms, then paused at t = 7000 ms and resumed at t = 9000 ms. -/
theorem getStats_duration_formula_witness :
    trackerOne.session.isPaused = false ∧
    (0 : ℝ) < trackerOne.session.startedAt ∧
    ((getStats trackerOne profile0 5000).2.duration =
      (jsRound ((5000 - trackerOne.session.startedAt -
        trackerOne.session.totalPausedTime) / 1000 / 60 * 10) : ℝ) / 10 ∧
    (getStats (start (pause trackerOne 7000) 9000) profile0 9000).2.duration =
      (getStats trackerOne profile0 7000).2.duration) := by
  have hs : (0 : ℝ) < trackerOne.session.startedAt := by
    norm_num [trackerOne, sessionOne, initialSession]
  exact ⟨rfl, hs,
    getStats_duration_formula_and_pause_resume trackerOne profile0
      5000 7000 9000 rfl hs⟩

/-! ### Elevation gain/loss accounting -/

lemma elevPairs_append (l : List RunSample) (a b : RunSample) :
    elevPairs (l ++ [a, b]) =
      ((elevPairs (l ++ [a])).1 + (elevDelta a.elevation b.elevation).1,
       (elevPairs (l ++ [a])).2 + (elevDelta a.elevation b.elevation).2) := by
  induction l with
  | nil =>
    simp only [List.nil_append, elevPairs, Prod.mk.injEq]
    constructor <;> ring
  | cons x xs ih =>
    cases xs with
    | nil =>
      simp only [List.cons_append, List.nil_append, elevPairs, Prod.mk.injEq]
      constructor <;> ring
    | cons y ys =>
      simp only [List.cons_append, List.append_eq, elevPairs] at ih ⊢
      rw [ih]
      simp only [Prod.mk.injEq]
      constructor <;> ring

/-- C6 counterexample: the claim says the 3 m minimum-change threshold also
governs the elevation service's gain/loss computation.
`ElevationService.calculateElevationStats` applies no threshold at all: a
1 m climb between two readings contributes 1 m of gain, where the claim
demands a zero contribution. -/
theorem calculateElevationStats_no_threshold :
    calculateElevationStats [0, 1] = (1, 0) ∧ ((1 : ℝ) ≠ 0) := by
  constructor
  · unfold calculateElevationStats
    rw [if_neg (by norm_num)]
    simp only [elevationServicePairs]
    norm_num [jsRound]
  · norm_num

/-- C6 amended: in the tracker's session totals (`updateTotals`) and per-lap
statistics (`calculateLapStats`) a consecutive elevation delta below 3 m in
magnitude contributes exactly zero to gain and loss, and a delta of
magnitude at least 3 m contributes its full magnitude to gain when positive
and to loss when negative; but `ElevationService.calculateElevationStats`
applies no threshold (see the counterexample), so the claim's third clause
fails.  The conjuncts: threshold semantics of the per-pair contribution, the
contribution of a newly appended pair to the accumulated totals, and the
fact that `updateTotals` and `calculateLapStats` store exactly these
accumulated totals. -/
theorem elevation_threshold_in_tracker :
    (∀ pe ce : ℝ, |ce - pe| < MIN_ELEVATION_CHANGE →
      elevDelta (some pe) (some ce) = (0, 0)) ∧
    (∀ pe ce : ℝ, MIN_ELEVATION_CHANGE ≤ |ce - pe| → 0 < ce - pe →
      elevDelta (some pe) (some ce) = (ce - pe, 0)) ∧
    (∀ pe ce : ℝ, MIN_ELEVATION_CHANGE ≤ |ce - pe| → ce - pe ≤ 0 →
      elevDelta (some pe) (some ce) = (0, |ce - pe|)) ∧
    (∀ (l : List RunSample) (a b : RunSample),
      elevPairs (l ++ [a, b]) =
        ((elevPairs (l ++ [a])).1 + (elevDelta a.elevation b.elevation).1,
         (elevPairs (l ++ [a])).2 + (elevDelta a.elevation b.elevation).2)) ∧
    (∀ s : RunSession, s.samples ≠ [] →
      (updateTotals s).totals.elevationGain = (elevPairs s.samples).1 ∧
      (updateTotals s).totals.elevationLoss = (elevPairs s.samples).2) ∧
    (∀ (st : TrackerState) (lap : RunLap),
      2 ≤ ((st.session.samples.drop lap.startSampleIndex).take
        (lap.endSampleIndex + 1 - lap.startSampleIndex)).length →
      (calculateLapStats st lap).elevationGain =
        (elevPairs ((st.session.samples.drop lap.startSampleIndex).take
          (lap.endSampleIndex + 1 - lap.startSampleIndex))).1 ∧
      (calculateLapStats st lap).elevationLoss =
        (elevPairs ((st.session.samples.drop lap.startSampleIndex).take
          (lap.endSampleIndex + 1 - lap.startSampleIndex))).2) := by
  refine ⟨?_, ?_, ?_, elevPairs_append, ?_, ?_⟩
  · intro pe ce h
    simp only [elevDelta]
    rw [if_neg (not_le.mpr h)]
  · intro pe ce h h2
    simp only [elevDelta]
    rw [if_pos h, if_pos h2]
  · intro pe ce h h2
    simp only [elevDelta]
    rw [if_pos h, if_neg (not_lt.mpr h2)]
  · intro s hne
    unfold updateTotals
    cases hlast : s.samples.getLast? with
    | none =>
      exact absurd (List.getLast?_eq_none_iff.mp hlast) hne
    | some lastSample =>
      exact ⟨rfl, rfl⟩
  · intro st lap h
    unfold calculateLapStats
    rw [if_neg (not_lt.mpr h)]
    exact ⟨rfl, rfl⟩

/-- Witness for the C6 amended theorem at concrete inputs: a 1 m delta
contributes nothing, a 5 m climb contributes 5 m of gain, a 4 m drop
contributes 4 m of loss, and the lap over `trackerTwo`'s two samples stores
the accumulated totals. -/
theorem elevation_threshold_in_tracker_witness :
    (|(1 : ℝ) - 0| < MIN_ELEVATION_CHANGE ∧
      elevDelta (some 0) (some 1) = (0, 0)) ∧
    (MIN_ELEVATION_CHANGE ≤ |(5 : ℝ) - 0| ∧ (0:ℝ) < 5 - 0 ∧
      elevDelta (some 0) (some 5) = (5 - 0, 0)) ∧
    (MIN_ELEVATION_CHANGE ≤ |(-4 : ℝ) - 0| ∧ ((-4 : ℝ) - 0 ≤ 0) ∧
      elevDelta (some 0) (some (-4)) = (0, |(-4 : ℝ) - 0|)) ∧
    (sessionOne.samples ≠ [] ∧
      (updateTotals sessionOne).totals.elevationGain =
        (elevPairs sessionOne.samples).1) ∧
    (2 ≤ ((trackerTwo.session.samples.drop lapFix.startSampleIndex).take
        (lapFix.endSampleIndex + 1 - lapFix.startSampleIndex)).length ∧
      (calculateLapStats trackerTwo lapFix).elevationGain =
        (elevPairs ((trackerTwo.session.samples.drop lapFix.startSampleIndex).take
          (lapFix.endSampleIndex + 1 - lapFix.startSampleIndex))).1) := by
  have h1 : |(1 : ℝ) - 0| < MIN_ELEVATION_CHANGE := by
    norm_num [MIN_ELEVATION_CHANGE]
  have h5 : MIN_ELEVATION_CHANGE ≤ |(5 : ℝ) - 0| := by
    norm_num [MIN_ELEVATION_CHANGE]
  have h4 : MIN_ELEVATION_CHANGE ≤ |(-4 : ℝ) - 0| := by
    rw [abs_of_nonpos (by norm_num)]
    norm_num [MIN_ELEVATION_CHANGE]
  have hs : sessionOne.samples ≠ [] := by
    norm_num [sessionOne, initialSession]
  have hl : 2 ≤ ((trackerTwo.session.samples.drop lapFix.startSampleIndex).take
      (lapFix.endSampleIndex + 1 - lapFix.startSampleIndex)).length := by
    norm_num [trackerTwo, lapFix, initialSession]
  refine ⟨⟨h1, elevation_threshold_in_tracker.1 0 1 h1⟩,
    ⟨h5, by norm_num, elevation_threshold_in_tracker.2.1 0 5 h5 (by norm_num)⟩,
    ⟨h4, by norm_num, elevation_threshold_in_tracker.2.2.1 0 (-4) h4 (by norm_num)⟩,
    ⟨hs, (elevation_threshold_in_tracker.2.2.2.2.1 sessionOne hs).1⟩,
    ⟨hl, (elevation_threshold_in_tracker.2.2.2.2.2 trackerTwo lapFix hl).1⟩⟩

/-! ### Structural facts about createLap, checkForSplit, updatePaceWindow
and addSample -/

lemma calculateLapStats_index (st : TrackerState) (lap : RunLap) :
    (calculateLapStats st lap).index = lap.index := by
  simp only [calculateLapStats]
  split_ifs <;> rfl

lemma createLap_samples (st : TrackerState) (i : ℤ) :
    (createLap st i).session.samples = st.session.samples := by
  simp only [createLap]
  split_ifs
  · rfl
  · cases st.session.samples.get? (createLapStartIdx st.session.laps i) <;>
      cases st.session.samples.get?
        (jsFindIndex (fun s => i * st.session.splitDistance ≤
          s.cumulativeDistance) st.session.samples).toNat <;> rfl

lemma createLap_totals (st : TrackerState) (i : ℤ) :
    (createLap st i).session.totals = st.session.totals := by
  simp only [createLap]
  split_ifs
  · rfl
  · cases st.session.samples.get? (createLapStartIdx st.session.laps i) <;>
      cases st.session.samples.get?
        (jsFindIndex (fun s => i * st.session.splitDistance ≤
          s.cumulativeDistance) st.session.samples).toNat <;> rfl

lemma createLap_splitDistance (st : TrackerState) (i : ℤ) :
    (createLap st i).session.splitDistance = st.session.splitDistance := by
  simp only [createLap]
  split_ifs
  · rfl
  · cases st.session.samples.get? (createLapStartIdx st.session.laps i) <;>
      cases st.session.samples.get?
        (jsFindIndex (fun s => i * st.session.splitDistance ≤
          s.cumulativeDistance) st.session.samples).toNat <;> rfl

lemma checkForSplit_samples (st : TrackerState) (sample : RunSample) :
    (checkForSplit st sample).session.samples = st.session.samples := by
  simp only [checkForSplit]
  split_ifs
  · exact createLap_samples st _
  · rfl

lemma checkForSplit_totals (st : TrackerState) (sample : RunSample) :
    (checkForSplit st sample).session.totals = st.session.totals := by
  simp only [checkForSplit]
  split_ifs
  · exact createLap_totals st _
  · rfl

lemma checkForSplit_splitDistance (st : TrackerState) (sample : RunSample) :
    (checkForSplit st sample).session.splitDistance =
      st.session.splitDistance := by
  simp only [checkForSplit]
  split_ifs
  · exact createLap_splitDistance st _
  · rfl

lemma updatePaceWindow_fst_session (st : TrackerState) (s : RunSample) :
    (updatePaceWindow st s).1.session = st.session := by
  simp only [updatePaceWindow]
  cases s.instantPace with
  | none => rfl
  | some ip =>
    simp only []
    split_ifs <;> rfl

lemma updatePaceWindow_snd_fields (st : TrackerState) (s : RunSample) :
    (updatePaceWindow st s).2.lat = s.lat ∧
    (updatePaceWindow st s).2.lon = s.lon ∧
    (updatePaceWindow st s).2.timestamp = s.timestamp ∧
    (updatePaceWindow st s).2.cumulativeDistance = s.cumulativeDistance := by
  simp only [updatePaceWindow]
  cases s.instantPace with
  | none => exact ⟨rfl, rfl, rfl, rfl⟩
  | some ip =>
    simp only []
    split_ifs <;> exact ⟨rfl, rfl, rfl, rfl⟩

lemma createSample_fields (s : RunSession) (c : GPSCoordinate) (t : ℝ) :
    (createSample s c t).lat = c.lat ∧
    (createSample s c t).lon = c.lon ∧
    (createSample s c t).cumulativeDistance =
      (match s.samples.getLast? with
       | some p => p.cumulativeDistance +
           calculateDistance p.lat p.lon c.lat c.lon
       | none => 0) := by
  simp only [createSample]
  cases s.samples.getLast? with
  | none => exact ⟨rfl, rfl, rfl⟩
  | some p =>
    simp only []
    split_ifs <;> exact ⟨rfl, rfl, rfl⟩

lemma dropLast_append_singleton {α : Type} (l : List α) (a : α) :
    (l ++ [a]).dropLast = l := by
  induction l with
  | nil => rfl
  | cons x xs ih =>
    cases hxs : xs ++ [a] with
    | nil => exact absurd hxs (by simp)
    | cons y ys =>
      simp only [List.cons_append, hxs, List.dropLast_cons₂]
      rw [← hxs, ih]

/-- What `addSample` does to the sample ledger: either the state is left
unchanged (not running, or the fix rejected), or exactly the derived sample
is appended, carrying the fix's coordinates and the previous cumulative
distance plus the Haversine increment. -/
lemma addSample_samples_spec (st : TrackerState) (c : GPSCoordinate)
    (now : ℝ) :
    (addSample st c now).session.samples = st.session.samples ∨
    ∃ s2 : RunSample,
      (addSample st c now).session.samples = st.session.samples ++ [s2] ∧
      s2.lat = c.lat ∧ s2.lon = c.lon ∧
      s2.cumulativeDistance =
        (match st.session.samples.getLast? with
         | some p => p.cumulativeDistance +
             calculateDistance p.lat p.lon c.lat c.lon
         | none => 0) := by
  simp only [addSample]
  split_ifs with h1 h2
  · exact Or.inl rfl
  · refine Or.inr ⟨(updatePaceWindow
      { st with session := { st.session with
          samples := st.session.samples ++ [createSample st.session c now] } }
      (createSample st.session c now)).2, ?_, ?_, ?_, ?_⟩
    · rw [checkForSplit_samples]
      simp only [updatePaceWindow_fst_session]
      rw [dropLast_append_singleton]
    · rw [(updatePaceWindow_snd_fields _ _).1, (createSample_fields _ _ _).1]
    · rw [(updatePaceWindow_snd_fields _ _).2.1,
        (createSample_fields _ _ _).2.1]
    · rw [(updatePaceWindow_snd_fields _ _).2.2.2,
        (createSample_fields _ _ _).2.2]
  · exact Or.inl rfl

/-- `addSample` never touches the session totals: they are updated only by
`updateTotals` (called from `getStats` and `stop`). -/
lemma addSample_totals (st : TrackerState) (c : GPSCoordinate) (now : ℝ) :
    (addSample st c now).session.totals = st.session.totals := by
  simp only [addSample]
  split_ifs with h1 h2
  · rfl
  · rw [checkForSplit_totals]
    simp only [updatePaceWindow_fst_session]
  · rfl

/-- C7 amended: `Totals.distance` is maintained lazily.  `addSample` never
writes the totals, so right after a sample is accepted `Totals.distance`
still holds its previous value; only `updateTotals` — reached through
`getStats` or `stop` — copies the last sample's cumulative distance into
`Totals.distance` (and leaves the session untouched when there are no
samples, so the initial 0 persists). -/
theorem totals_updated_lazily :
    (∀ (st : TrackerState) (c : GPSCoordinate) (now : ℝ),
      (addSample st c now).session.totals.distance =
        st.session.totals.distance) ∧
    (∀ (s : RunSession) (last : RunSample), s.samples.getLast? = some last →
      (updateTotals s).totals.distance = last.cumulativeDistance) ∧
    (∀ s : RunSession, s.samples = [] → updateTotals s = s) ∧
    (∀ (st : TrackerState) (last : RunSample),
      st.session.samples.getLast? = some last →
      (stop st).session.totals.distance = last.cumulativeDistance) := by
  have hupd : ∀ (s : RunSession) (last : RunSample),
      s.samples.getLast? = some last →
      (updateTotals s).totals.distance = last.cumulativeDistance := by
    intro s last h
    unfold updateTotals
    rw [h]
  refine ⟨?_, hupd, updateTotals_empty, ?_⟩
  · intro st c now
    rw [addSample_totals]
  · intro st last h
    rw [stop_eq]
    exact hupd { st.session with isPaused := true } last h

/-- Witness for the C7 amended theorem on concrete states. -/
theorem totals_updated_lazily_witness :
    sessionOne.samples.getLast? = some sampleO ∧
    (initialSession RunUnit.km).samples = [] ∧
    ((addSample trackerOne coordO 5).session.totals.distance =
        trackerOne.session.totals.distance ∧
      (updateTotals sessionOne).totals.distance =
        sampleO.cumulativeDistance ∧
      updateTotals (initialSession RunUnit.km) = initialSession RunUnit.km ∧
      (stop trackerOne).session.totals.distance =
        sampleO.cumulativeDistance) := by
  have h : sessionOne.samples.getLast? = some sampleO := rfl
  exact ⟨h, rfl, totals_updated_lazily.1 trackerOne coordO 5,
    totals_updated_lazily.2.1 sessionOne sampleO h,
    totals_updated_lazily.2.2.1 _ rfl,
    totals_updated_lazily.2.2.2 trackerOne sampleO h⟩

/-! ### Facts about jsFindIndex, toward the lap-creation analysis -/

lemma jsFindIndex_neg_one_or_nonneg {α : Type} (p : α → Prop) (l : List α) :
    jsFindIndex p l = -1 ∨ 0 ≤ jsFindIndex p l := by
  induction l with
  | nil => exact Or.inl rfl
  | cons a rest ih =>
    simp only [jsFindIndex]
    by_cases hpa : p a
    · rw [if_pos hpa]
      right
      norm_num
    · rw [if_neg hpa]
      rcases ih with h | h
      · rw [if_pos h]
        exact Or.inl rfl
      · rw [if_neg (by omega)]
        right
        omega

lemma jsFindIndex_spec {α : Type} (p : α → Prop) (l : List α) (x : α)
    (hx : x ∈ l) (hpx : p x) :
    0 ≤ jsFindIndex p l ∧
    ∃ y, l.get? (jsFindIndex p l).toNat = some y ∧ p y := by
  induction l with
  | nil => cases hx
  | cons a rest ih =>
    simp only [jsFindIndex]
    by_cases hpa : p a
    · rw [if_pos hpa]
      exact ⟨le_refl 0, a, rfl, hpa⟩
    · rw [if_neg hpa]
      have hx' : x ∈ rest := by
        rcases List.mem_cons.mp hx with rfl | h
        · exact absurd hpx hpa
        · exact h
      obtain ⟨hnn, y, hy, hpy⟩ := ih hx'
      rw [if_neg (by omega)]
      refine ⟨by omega, y, ?_, hpy⟩
      have htn : (jsFindIndex p rest + 1).toNat =
          (jsFindIndex p rest).toNat + 1 := by omega
      rw [htn]
      exact hy

/-- C1 amended: a lap is created only when
`floor(cumulative distance / split distance)` exceeds the number of recorded
laps, and `checkForSplit` then materializes exactly ONE new lap for the
triggering sample — raising the lap count by one and carrying index
`floor(cumulative distance / split distance)` — not one lap per missing
increment as the claim states.  So a sample that crosses several multiples
at once leaves the recorded lap count below
`floor(final cumulative distance / split distance)` at that moment (the
counterexample); the guard then keeps firing on later accepted samples,
adding at most one lap per sample that re-uses the then-current floor as its
(duplicate) index — the conclusion `lap.index = floor` holds with no
constraint on the indices already recorded — so the count can approach the
floor only one lap per accepted sample and the skipped lap indices are never
materialized. -/
theorem checkForSplit_single_lap (st : TrackerState) (sample : RunSample)
    (hsplit : 0 < st.session.splitDistance) :
    (⌊sample.cumulativeDistance / st.session.splitDistance⌋ ≤
        (st.session.laps.length : ℤ) →
      checkForSplit st sample = st) ∧
    ((st.session.laps.length : ℤ) <
        ⌊sample.cumulativeDistance / st.session.splitDistance⌋ →
      sample ∈ st.session.samples →
      createLapStartIdx st.session.laps
          ⌊sample.cumulativeDistance / st.session.splitDistance⌋ <
        st.session.samples.length →
      ∃ lap : RunLap,
        (checkForSplit st sample).session.laps =
          st.session.laps ++ [lap] ∧
        lap.index = ⌊sample.cumulativeDistance / st.session.splitDistance⌋ ∧
        (checkForSplit st sample).session.laps.length =
          st.session.laps.length + 1) := by
  constructor
  · intro h
    simp only [checkForSplit]
    rw [if_neg (not_lt.mpr h)]
  · intro h hmem hstart
    simp only [checkForSplit]
    rw [if_pos h]
    have htarget : (⌊sample.cumulativeDistance / st.session.splitDistance⌋ : ℝ) *
        st.session.splitDistance ≤ sample.cumulativeDistance := by
      rw [← le_div_iff₀ hsplit]
      exact Int.floor_le _
    obtain ⟨hnn, y, hy, hpy⟩ := jsFindIndex_spec
      (fun s => (⌊sample.cumulativeDistance / st.session.splitDistance⌋ : ℝ) *
        st.session.splitDistance ≤ s.cumulativeDistance)
      st.session.samples sample hmem htarget
    have hs0 := List.get?_eq_get hstart
    simp only [createLap]
    rw [if_neg (by omega), hs0, hy]
    simp only []
    exact ⟨calculateLapStats st _, rfl, by rw [calculateLapStats_index],
      by simp⟩

/-- Witness for the C1 amended theorem: a session whose single sample sits at
cumulative distance 2.5 km with split distance 1 km and no laps yet — the
split check creates exactly one lap, with index ⌊2.5⌋ = 2 (index 1 is
skipped and never materialized). -/
theorem checkForSplit_single_lap_witness :
    (0 : ℝ) < trackerCum25.session.splitDistance ∧
    (trackerCum25.session.laps.length : ℤ) <
      ⌊sCum25.cumulativeDistance / trackerCum25.session.splitDistance⌋ ∧
    sCum25 ∈ trackerCum25.session.samples ∧
    createLapStartIdx trackerCum25.session.laps
        ⌊sCum25.cumulativeDistance / trackerCum25.session.splitDistance⌋ <
      trackerCum25.session.samples.length ∧
    ∃ lap : RunLap,
      (checkForSplit trackerCum25 sCum25).session.laps =
        trackerCum25.session.laps ++ [lap] ∧
      lap.index = ⌊sCum25.cumulativeDistance /
        trackerCum25.session.splitDistance⌋ ∧
      (checkForSplit trackerCum25 sCum25).session.laps.length =
        trackerCum25.session.laps.length + 1 := by
  have hsplit : (0 : ℝ) < trackerCum25.session.splitDistance := by
    norm_num [trackerCum25, initialSession, splitDistanceOf]
  have hfloor : ⌊sCum25.cumulativeDistance /
      trackerCum25.session.splitDistance⌋ = 2 := by
    norm_num [sCum25, trackerCum25, initialSession, splitDistanceOf]
  have hlt : (trackerCum25.session.laps.length : ℤ) <
      ⌊sCum25.cumulativeDistance / trackerCum25.session.splitDistance⌋ := by
    rw [hfloor]
    norm_num [trackerCum25, initialSession]
  have hmem : sCum25 ∈ trackerCum25.session.samples := by
    simp [trackerCum25, initialSession]
  have hstart : createLapStartIdx trackerCum25.session.laps
      ⌊sCum25.cumulativeDistance / trackerCum25.session.splitDistance⌋ <
      trackerCum25.session.samples.length := by
    rw [hfloor]
    norm_num [createLapStartIdx, trackerCum25, initialSession]
  exact ⟨hsplit, hlt, hmem, hstart,
    (checkForSplit_single_lap trackerCum25 sCum25 hsplit).2 hlt hmem hstart⟩

/-! ### Evaluating the quarter-equator run -/

lemma quarterEquator_pos : (0 : ℝ) < 6371 * (π / 2) := by
  have h := Real.pi_gt_three
  nlinarith

lemma paceRun_pos : 0 < paceRun := by
  unfold paceRun
  have h := Real.pi_gt_three
  apply div_pos (by norm_num)
  apply mul_pos _ (by norm_num)
  apply div_pos _ (by norm_num)
  nlinarith

lemma paceRun_ge : (1.2 : ℝ) ≤ paceRun := by
  unfold paceRun
  have hπ := Real.pi_lt_d2
  have hπ3 := Real.pi_gt_three
  rw [le_div_iff₀ (by nlinarith)]
  nlinarith

lemma createSample_run2 :
    createSample trackerRun1.session coordE 1000001000 = s2run := by
  have hD := calculateDistance_zero_ninety
  have h1 : (0:ℝ) < 0 + 6371 * (π / 2) - 0 := by
    nlinarith [quarterEquator_pos]
  have hsp : (0:ℝ) < (0 + 6371 * (π / 2) - 0) /
      ((1000001000 - 1000) / 1000) * 3600 := by
    have h2 : (0:ℝ) < ((1000001000:ℝ) - 1000) / 1000 := by norm_num
    exact mul_pos (div_pos h1 h2) (by norm_num)
  simp only [createSample, coordE]
  rw [show trackerRun1.session.samples.getLast? = some s1run from rfl]
  simp only [s1run]
  rw [hD]
  rw [if_pos ⟨by norm_num, h1⟩, if_pos hsp]
  simp only [s2run, RunSample.mk.injEq, Option.some.injEq]
  norm_num [paceRun]

lemma isValidSample_run2 :
    isValidSample trackerRun1.session s2run = true := by
  simp only [isValidSample]
  rw [show trackerRun1.session.samples.getLast? = some s1run from rfl]
  simp only []
  rw [if_neg ?_, if_neg ?_]
  · rintro ⟨a, ha, -, -⟩
    rw [show s2run.accuracy = none from rfl] at ha
    exact Option.noConfusion ha
  · rintro ⟨p, hp, -, -, hlt⟩
    rw [show s2run.instantPace = some paceRun from rfl,
      Option.some.injEq] at hp
    rw [← hp] at hlt
    have := paceRun_ge
    linarith

lemma twoFixRun_eval :
    addSample trackerRun1 coordE 1000001000 =
      { checkForSplit trackerRun3 s2runS with lastSampleTime := 1000001000 } := by
  have h4ne : ¬ (paceRun = 0) := ne_of_gt paceRun_pos
  simp only [addSample]
  rw [if_neg (by norm_num [trackerRun1, initialSession])]
  rw [createSample_run2]
  simp only [isValidSample_run2, if_true]
  simp only [updatePaceWindow, s2run, jsFindIndex, jsSliceFrom, trackerRun1,
    trackerRun3, initialSession, s1run, s2runS, PACE_WINDOW_SIZE, h4ne]
  norm_num

lemma createLapStartIdx_nil (i : ℤ) : createLapStartIdx [] i = 0 := by
  simp only [createLapStartIdx]
  split_ifs <;> rfl

/-- C1 counterexample: one sample may cross several split multiples at once,
yet `checkForSplit` materializes only ONE lap (with index
`floor(cumulative/split)`), so the number of recorded laps does not equal
`floor(final cumulative distance / split distance)`.  Concretely: a started
km session accepts a fix at the origin and then a fix a quarter of the
equator away (6371·π/2 ≈ 10008 km, at walking speed over 10^6 s so the
validity gate accepts it); afterwards exactly 1 lap is recorded while
`floor(final cumulative distance / split distance)` is at least 2. -/
theorem lap_count_not_floor :
    (addSample trackerRun1 coordE 1000001000).session.laps.length = 1 ∧
    (addSample trackerRun1 coordE 1000001000).session.samples.map
      RunSample.cumulativeDistance = [0, 6371 * (π / 2)] ∧
    (addSample trackerRun1 coordE 1000001000).session.splitDistance = 1 ∧
    2 ≤ ⌊(6371 * (π / 2) : ℝ) / 1⌋ ∧
    ((addSample trackerRun1 coordE 1000001000).session.laps.length : ℤ) ≠
      ⌊(6371 * (π / 2) : ℝ) / 1⌋ := by
  have hsplit : (0:ℝ) < trackerRun3.session.splitDistance := by
    norm_num [trackerRun3, initialSession, splitDistanceOf]
  have hsplit1 : trackerRun3.session.splitDistance = 1 := by
    norm_num [trackerRun3, initialSession, splitDistanceOf]
  have hcum : s2runS.cumulativeDistance = 6371 * (π / 2) := rfl
  have hfl2 : 2 ≤ ⌊(6371 * (π / 2) : ℝ) / 1⌋ := by
    rw [Int.le_floor]
    push_cast
    have := Real.pi_gt_three
    nlinarith
  have hlt : (trackerRun3.session.laps.length : ℤ) <
      ⌊s2runS.cumulativeDistance / trackerRun3.session.splitDistance⌋ := by
    rw [show trackerRun3.session.laps = [] from rfl, hcum, hsplit1]
    simp only [List.length_nil, Nat.cast_zero]
    linarith [hfl2]
  have hmem : s2runS ∈ trackerRun3.session.samples := by
    simp [trackerRun3, initialSession]
  have hstart : createLapStartIdx trackerRun3.session.laps
      ⌊s2runS.cumulativeDistance / trackerRun3.session.splitDistance⌋ <
      trackerRun3.session.samples.length := by
    rw [show trackerRun3.session.laps = [] from rfl, createLapStartIdx_nil]
    norm_num [trackerRun3, initialSession]
  obtain ⟨lap, hlaps, hidx⟩ :=
    (checkForSplit_single_lap trackerRun3 s2runS hsplit).2 hlt hmem hstart
  refine ⟨?_, ?_, ?_, hfl2, ?_⟩
  · rw [twoFixRun_eval]
    show (checkForSplit trackerRun3 s2runS).session.laps.length = 1
    rw [hlaps]
    rfl
  · rw [twoFixRun_eval]
    show ((checkForSplit trackerRun3 s2runS).session.samples.map
      RunSample.cumulativeDistance) = [0, 6371 * (π / 2)]
    rw [checkForSplit_samples]
    simp [trackerRun3, initialSession, s1run, s2runS, s2run]
  · rw [twoFixRun_eval]
    show (checkForSplit trackerRun3 s2runS).session.splitDistance = 1
    rw [checkForSplit_splitDistance, hsplit1]
  · rw [twoFixRun_eval]
    show ((checkForSplit trackerRun3 s2runS).session.laps.length : ℤ) ≠
      ⌊(6371 * (π / 2) : ℝ) / 1⌋
    rw [hlaps, show (trackerRun3.session.laps ++ [lap]).length = 1 from rfl]
    intro hcontra
    rw [← hcontra] at hfl2
    norm_num at hfl2

/-- C7 counterexample: right after the quarter-equator run's second sample is
accepted, `Totals.distance` still holds 0 while the last sample's cumulative
distance is 6371·π/2 ≠ 0 — `addSample` does not call `updateTotals`, so the
claimed invariant fails between a sample and the next `getStats`/`stop`. -/
theorem totals_distance_stale :
    (addSample trackerRun1 coordE 1000001000).session.totals.distance = 0 ∧
    ((addSample trackerRun1 coordE 1000001000).session.samples.map
      RunSample.cumulativeDistance).getLast? = some (6371 * (π / 2)) ∧
    (6371 * (π / 2) : ℝ) ≠ 0 := by
  refine ⟨?_, ?_, ne_of_gt quarterEquator_pos⟩
  · rw [addSample_totals]
    rfl
  · rw [twoFixRun_eval]
    show ((checkForSplit trackerRun3 s2runS).session.samples.map
      RunSample.cumulativeDistance).getLast? = some (6371 * (π / 2))
    rw [checkForSplit_samples]
    simp [trackerRun3, initialSession, s1run, s2runS, s2run]

/-! ### The cumulative-distance invariant (C4) -/

lemma start_samples (st : TrackerState) (now : ℝ) :
    (start st now).session.samples = st.session.samples := by
  simp only [start]
  split_ifs <;> rfl

lemma addSample_invariant (st : TrackerState) (c : GPSCoordinate) (now : ℝ)
    (h1 : cumConsistent st.session.samples)
    (h2 : headZero st.session.samples) :
    cumConsistent (addSample st c now).session.samples ∧
    headZero (addSample st c now).session.samples := by
  rcases addSample_samples_spec st c now with h | ⟨s2, hs2, hlat, hlon, hcum⟩
  · rw [h]
    exact ⟨h1, h2⟩
  · rw [hs2]
    constructor
    · rw [cumConsistent, List.chain'_append]
      refine ⟨h1, List.chain'_singleton _, ?_⟩
      intro x hx y hy
      have hy' : s2 = y := by simpa using hy
      have hx' : st.session.samples.getLast? = some x := Option.mem_def.mp hx
      subst hy'

      rw [hcum, hx', hlat, hlon]
    · intro s hs
      cases hl : st.session.samples with
      | nil =>
        rw [hl] at hs hcum
        simp only [List.nil_append, List.head?_cons, Option.mem_def,
          Option.some.injEq] at hs
        simp only [List.getLast?_nil] at hcum
        rw [hs] at hcum
        exact hcum
      | cons a rest =>
        have hmem : s ∈ (a :: rest).head? := by
          rw [hl] at hs
          simpa using hs
        exact h2 s (by rw [hl]; exact hmem)

lemma processFixes_invariant (fs : List (GPSCoordinate × ℝ)) :
    ∀ st : TrackerState, cumConsistent st.session.samples →
      headZero st.session.samples →
      cumConsistent (processFixes st fs).session.samples ∧
      headZero (processFixes st fs).session.samples := by
  induction fs with
  | nil =>
    intro st h1 h2
    exact ⟨h1, h2⟩
  | cons f rest ih =>
    intro st h1 h2
    have h := addSample_invariant st f.1 f.2 h1 h2
    exact ih (addSample st f.1 f.2) h.1 h.2

lemma cum_eq_offset (l : List RunSample) (hc : cumConsistent l) :
    ∀ (i : ℕ) (h : i < l.length),
      (l.get ⟨i, h⟩).cumulativeDistance =
        (match l.head? with
         | some a => a.cumulativeDistance
         | none => 0) + pairwiseSum (l.take (i + 1)) := by
  induction l with
  | nil =>
    intro i h
    exact absurd h (by simp)
  | cons a rest ih =>
    intro i h
    cases i with
    | zero =>
      show a.cumulativeDistance = a.cumulativeDistance + pairwiseSum [a]
      rw [show pairwiseSum [a] = 0 from rfl]
      ring
    | succ j =>
      cases rest with
      | nil =>
        exact absurd h (by simp)
      | cons b rest2 =>
        have hcons := List.chain'_cons.mp hc
        have hj : j < (b :: rest2).length := by
          simpa using Nat.lt_of_succ_lt_succ h
        have hih := ih hcons.2 j hj
        rw [show ((a :: b :: rest2).get ⟨j + 1, h⟩) =
          ((b :: rest2).get ⟨j, hj⟩) from rfl]
        rw [hih]
        rw [show ((a :: b :: rest2).take (j + 1 + 1)) =
          a :: b :: rest2.take j from rfl]
        rw [show ((b :: rest2).take (j + 1)) = b :: rest2.take j from rfl]
        rw [show pairwiseSum (a :: b :: rest2.take j) =
          calculateDistance a.lat a.lon b.lat b.lon +
            pairwiseSum (b :: rest2.take j) from rfl]
        simp only [List.head?_cons]
        rw [hcons.1]
        ring

lemma cum_monotone (l : List RunSample) (hc : cumConsistent l) :
    List.Chain' (fun p c2 =>
      p.cumulativeDistance ≤ c2.cumulativeDistance) l := by
  apply List.Chain'.imp _ hc
  intro a b hab
  rw [hab]
  have := calculateDistance_nonneg a.lat a.lon b.lat b.lon
  linarith

/-- C4: feeding any fix sequence with monotonically increasing timestamps and
accuracy below threshold to a freshly started session, every stored sample's
cumulative distance equals the sum of the pairwise Haversine increments over
its prefix of accepted samples, and the cumulative distances are
monotonically non-decreasing.  (Both conclusions in fact hold for every fix
sequence; the hypotheses restate the claim's scope.) -/
theorem cumulative_distance_is_pairwise_haversine_sum (u : RunUnit) (t0 : ℝ)
    (fixes : List (GPSCoordinate × ℝ))
    (hts : List.Chain' (fun f g => f.2 < g.2) fixes)
    (hacc : ∀ f ∈ fixes, ∀ a ∈ f.1.accuracy, a < 30) :
    (∀ (i : ℕ) (h : i < (processFixes (start (initialTracker u) t0)
        fixes).session.samples.length),
      ((processFixes (start (initialTracker u) t0) fixes).session.samples.get
          ⟨i, h⟩).cumulativeDistance =
        pairwiseSum ((processFixes (start (initialTracker u) t0)
          fixes).session.samples.take (i + 1))) ∧
    List.Chain' (fun p c2 => p.cumulativeDistance ≤ c2.cumulativeDistance)
      (processFixes (start (initialTracker u) t0) fixes).session.samples := by
  have hinit1 : cumConsistent (start (initialTracker u) t0).session.samples := by
    rw [start_samples]
    exact List.chain'_nil
  have hinit2 : headZero (start (initialTracker u) t0).session.samples := by
    rw [start_samples]
    intro s hs
    simp [initialTracker, initialSession] at hs
  obtain ⟨hc, hz⟩ := processFixes_invariant fixes _ hinit1 hinit2
  refine ⟨?_, cum_monotone _ hc⟩
  intro i h
  rw [cum_eq_offset _ hc i h]
  cases hh : (processFixes (start (initialTracker u) t0)
      fixes).session.samples.head? with
  | none =>
    simp
  | some a =>
    have ha : a.cumulativeDistance = 0 := hz a (by rw [hh]; rfl)
    simp only [ha, zero_add]

/-- Witness for the C4 theorem: a two-fix sequence with increasing
timestamps and no accuracy readings. -/
theorem cumulative_distance_witness :
    List.Chain' (fun f g => f.2 < g.2)
      ([(coordO, 1000), (coordE, 2000)] : List (GPSCoordinate × ℝ)) ∧
    (∀ f ∈ ([(coordO, 1000), (coordE, 2000)] : List (GPSCoordinate × ℝ)),
      ∀ a ∈ f.1.accuracy, a < 30) ∧
    List.Chain' (fun p c2 => p.cumulativeDistance ≤ c2.cumulativeDistance)
      (processFixes (start (initialTracker RunUnit.km) 1)
        [(coordO, 1000), (coordE, 2000)]).session.samples := by
  have h1 : List.Chain' (fun f g => f.2 < g.2)
      ([(coordO, 1000), (coordE, 2000)] : List (GPSCoordinate × ℝ)) := by
    simp only [List.chain'_cons, List.chain'_singleton, and_true]
    norm_num
  have h2 : ∀ f ∈ ([(coordO, 1000), (coordE, 2000)] :
      List (GPSCoordinate × ℝ)), ∀ a ∈ f.1.accuracy, a < 30 := by
    intro f hf a ha
    rcases List.mem_cons.mp hf with rfl | hf'
    · rw [show coordO.accuracy = none from rfl] at ha
      exact absurd ha (by simp)
    · rcases List.mem_cons.mp hf' with rfl | hf''
      · rw [show coordE.accuracy = none from rfl] at ha
        exact absurd ha (by simp)
      · exact absurd hf'' (by simp)
  exact ⟨h1, h2, (cumulative_distance_is_pairwise_haversine_sum RunUnit.km 1
    [(coordO, 1000), (coordE, 2000)] h1 h2).2⟩
